import Mathlib

/-!
Verification of the Dynamic-Pricing repository (src/dynamic_pricing.py).

The file shallowly embeds the data-transformation core of the Streamlit app:
the model feature column list `feature_cols`, the inner join of the edited
price rows with the `pricing_detail` table, the demand/profit lift
aggregation built from Snowpark column expressions, the append-only commit
to `pricing_final`, and the history view ordered by timestamp descending.
Monetary and demand values are embedded as exact rationals (the warehouse
stores them as exact decimals). All fallible steps return `Except`.
-/

namespace DynamicPricing

/-- One row of the `pricing` table after line 71 adds the `comment` column:
identity key (brand, item, day_of_week), the operator-editable `new_price`,
`base_price`, the twelve historical feature columns listed in
`feature_cols`, and the `comment` column. -/
structure PricingRecord where
  brand : String
  item : String
  day_of_week : String
  new_price : ℚ
  base_price : ℚ
  price_hist_dow : ℚ
  price_year_dow : ℚ
  price_month_dow : ℚ
  price_change_hist_dow : ℚ
  price_change_year_dow : ℚ
  price_change_month_dow : ℚ
  price_hist_roll : ℚ
  price_year_roll : ℚ
  price_month_roll : ℚ
  price_change_hist_roll : ℚ
  price_change_year_roll : ℚ
  price_change_month_roll : ℚ
  comment : String
  deriving DecidableEq, Repr

/-- The model input feature list defined at the top of the source
(lines 10-25), in source order. -/
def feature_cols : List String :=
  [ "new_price",
    "base_price",
    "price_hist_dow",
    "price_year_dow",
    "price_month_dow",
    "price_change_hist_dow",
    "price_change_year_dow",
    "price_change_month_dow",
    "price_hist_roll",
    "price_year_roll",
    "price_month_roll",
    "price_change_hist_roll",
    "price_change_year_roll",
    "price_change_month_roll" ]

/-- Look up the value a pricing record holds in a named feature column.
Returns `none` for a column name outside `feature_cols`. -/
def colValue (r : PricingRecord) : String → Option ℚ
  | "new_price" => some r.new_price
  | "base_price" => some r.base_price
  | "price_hist_dow" => some r.price_hist_dow
  | "price_year_dow" => some r.price_year_dow
  | "price_month_dow" => some r.price_month_dow
  | "price_change_hist_dow" => some r.price_change_hist_dow
  | "price_change_year_dow" => some r.price_change_year_dow
  | "price_change_month_dow" => some r.price_change_month_dow
  | "price_hist_roll" => some r.price_hist_roll
  | "price_year_roll" => some r.price_year_roll
  | "price_month_roll" => some r.price_month_roll
  | "price_change_hist_roll" => some r.price_change_hist_roll
  | "price_change_year_roll" => some r.price_change_year_roll
  | "price_change_month_roll" => some r.price_change_month_roll
  | _ => none

/-- The positional argument sequence passed to `udf_demand_price` at
lines 127-129: `[F.col c for c in feature_cols]`, i.e. the record's value
in each column of `feature_cols`, in that order. -/
def featureVector (r : PricingRecord) : List ℚ :=
  (feature_cols.filterMap fun c => colValue r c)

/-- One row of the `pricing_detail` table: the same join key plus the
baseline columns selected at lines 121-126. -/
structure DetailRow where
  brand : String
  item : String
  day_of_week : String
  item_cost : ℚ
  average_basket_profit : ℚ
  current_price_demand : ℚ
  current_price_profit : ℚ
  deriving DecidableEq, Repr

/-- The equality predicate of the Snowpark join
`set_prices.join(pricing_detail, ["brand", "item", "day_of_week"])`. -/
def keyMatches (r : PricingRecord) (d : DetailRow) : Bool :=
  r.brand == d.brand && r.item == d.item && r.day_of_week == d.day_of_week

/-- The join at lines 118-120: Snowpark `join` with a key list and no
join-type argument is an inner join, so each edited row is paired with
every matching detail row and rows without a match produce nothing. -/
def joinDetail (records : List PricingRecord) (detail : List DetailRow) :
    List (PricingRecord × DetailRow) :=
  records.flatMap fun r => (detail.filter (keyMatches r)).map fun d => (r, d)

/-- One row of `df_demand` (lines 118-130): the selected columns plus the
scored `new_price_demand`. -/
structure DemandRow where
  day_of_week : String
  current_price_demand : ℚ
  new_price : ℚ
  item_cost : ℚ
  average_basket_profit : ℚ
  current_price_profit : ℚ
  new_price_demand : ℚ
  deriving DecidableEq, Repr

/-- `df_demand` (lines 118-130): join the edited rows with `pricing_detail`,
select the baseline columns and alias `udf_demand_price` applied to the
feature columns as `new_price_demand`. The hosted scoring function is a
black box, passed in as `udf`. -/
def dfDemand (udf : List ℚ → ℚ) (records : List PricingRecord)
    (detail : List DetailRow) : List DemandRow :=
  (joinDetail records detail).map fun p =>
    { day_of_week := p.1.day_of_week
      current_price_demand := p.2.current_price_demand
      new_price := p.1.new_price
      item_cost := p.2.item_cost
      average_basket_profit := p.2.average_basket_profit
      current_price_profit := p.2.current_price_profit
      new_price_demand := udf (featureVector p.1) }

/-- Round a rational to the nearest integer, halves away from zero —
the rounding Snowflake's `ROUND` applies by default. -/
def roundHalfAwayFromZero (x : ℚ) : ℤ :=
  if 0 ≤ x then ⌊x + 1 / 2⌋ else -⌊-x + 1 / 2⌋

/-- Snowflake `ROUND(x, 1)` as generated by `F.round(expr, 1)`:
round to one decimal place, halves away from zero. -/
def snowRound1 (x : ℚ) : ℚ :=
  (roundHalfAwayFromZero (x * 10) : ℚ) / 10

/-- The error conditions the embedded pipeline can surface. The first two
are what the warehouse actually raises (a division-by-zero error from a
zero denominator in a lift query, and a rejected write); the remaining five
are the named kinds of the design's error taxonomy, carried here so that
statements can compare what the code raises against the taxonomy. -/
inductive ErrKind where
  | snowparkDivisionByZero : ErrKind
  | snowparkWriteFailed : ErrKind
  | malformedRecord : ErrKind
  | modelUnavailable : ErrKind
  | joinMismatch : ErrKind
  | undefinedLift : ErrKind
  | commitFailure : ErrKind
  deriving DecidableEq, Repr

/-- Sum a column of `df_demand`, as `F.sum` does. -/
def sumCol (f : DemandRow → ℚ) (rows : List DemandRow) : ℚ :=
  (rows.map f).sum

/-- `demand_lift` (lines 133-142):
`ROUND(((SUM(new_price_demand) - SUM(current_price_demand)) / SUM(current_price_demand)) * 100, 1)`.
Snowflake raises a division-by-zero error when the denominator sum is 0. -/
def demand_lift (rows : List DemandRow) : Except ErrKind ℚ :=
  if sumCol (fun row => row.current_price_demand) rows = 0 then
    .error .snowparkDivisionByZero
  else
    .ok (snowRound1
      ((sumCol (fun row => row.new_price_demand) rows
          - sumCol (fun row => row.current_price_demand) rows)
        / sumCol (fun row => row.current_price_demand) rows * 100))

/-- The `new_price_profit` column added at lines 146-150:
`new_price_demand * (new_price - item_cost + average_basket_profit)`. -/
def new_price_profit (row : DemandRow) : ℚ :=
  row.new_price_demand * (row.new_price - row.item_cost + row.average_basket_profit)

/-- `profit_lift` (lines 145-162): add the `new_price_profit` column, then
`ROUND(((SUM(new_price_profit) - SUM(current_price_profit)) / SUM(current_price_profit)) * 100, 1)`.
Snowflake raises a division-by-zero error when the denominator sum is 0. -/
def profit_lift (rows : List DemandRow) : Except ErrKind ℚ :=
  if sumCol (fun row => row.current_price_profit) rows = 0 then
    .error .snowparkDivisionByZero
  else
    .ok (snowRound1
      ((sumCol new_price_profit rows
          - sumCol (fun row => row.current_price_profit) rows)
        / sumCol (fun row => row.current_price_profit) rows * 100))

/-- The two metrics the Demand Forecast tab displays. -/
structure LiftMetrics where
  demandLiftPct : ℚ
  profitLiftPct : ℚ
  deriving DecidableEq, Repr

/-- The evaluation of tab2 (lines 114-177): build `df_demand`, collect
`demand_lift`, then collect `profit_lift`; any warehouse error aborts the
whole tab (the enclosing `try` block). -/
def evaluate (udf : List ℚ → ℚ) (records : List PricingRecord)
    (detail : List DetailRow) : Except ErrKind LiftMetrics :=
  match demand_lift (dfDemand udf records detail) with
  | .error e => .error e
  | .ok d =>
    match profit_lift (dfDemand udf records detail) with
    | .error e => .error e
    | .ok p => .ok { demandLiftPct := d, profitLiftPct := p }

/-- Load the `pricing` table (line 71): every loaded row gets the literal
empty string as its `comment` column, `with_column("comment", F.lit(""))`. -/
def loadPricing (tbl : List PricingRecord) : List PricingRecord :=
  tbl.map fun r => { r with comment := "" }

/-- `st.data_editor` at lines 96-111: the editor shows the filtered rows
and returns them with the operator's cell edits applied. The call fixes the
row count (no `num_rows` argument) and disables no column, so the operator
may change the value of any cell of any row, including the `comment` cells;
only the `new_price` column gets a display configuration. Modelled as an
operator-chosen per-row edit applied to every row. -/
def dataEditor (edit : PricingRecord → PricingRecord)
    (rows : List PricingRecord) : List PricingRecord :=
  rows.map edit

/-- A row of the `pricing_final` table: all columns of the committed row
plus the `timestamp` column added at line 209. -/
structure CommittedRow where
  row : PricingRecord
  timestamp : ℕ
  deriving DecidableEq, Repr

/-- The persisted state of the `pricing_final` table (append-only). -/
structure LogState where
  rows : List CommittedRow
  deriving DecidableEq, Repr

/-- Stamp every row of a batch with the shared write timestamp, as
`with_column("timestamp", F.current_timestamp())` does. -/
def stampBatch (batch : List PricingRecord) (t : ℕ) : List CommittedRow :=
  batch.map fun r => { row := r, timestamp := t }

/-- The commit at lines 207-212: one
`write.mode("append").save_as_table("pricing_final")` call over the whole
edited frame. The append is a single INSERT statement against the
warehouse, which applies a statement atomically: either the store accepts
the statement and all stamped rows are appended (`storeOk = true`), or it
rejects the statement, no row is written and the error propagates to the
enclosing `try` block. The resulting table state is paired with the raised
error, if any. -/
def commitStep (s : LogState) (batch : List PricingRecord) (t : ℕ)
    (storeOk : Bool) : LogState × Option ErrKind :=
  if storeOk then ({ rows := s.rows ++ stampBatch batch t }, none)
  else (s, some .snowparkWriteFailed)

/-- Insert a committed row into a list kept in timestamp-descending order. -/
def insertByTsDesc (c : CommittedRow) : List CommittedRow → List CommittedRow
  | [] => [c]
  | x :: xs =>
    if x.timestamp ≤ c.timestamp then c :: x :: xs
    else x :: insertByTsDesc c xs

/-- Sort committed rows by timestamp descending (insertion sort). -/
def sortByTsDesc : List CommittedRow → List CommittedRow
  | [] => []
  | x :: xs => insertByTsDesc x (sortByTsDesc xs)

/-- `history_df` (line 216):
`session.table("pricing_final").order_by(F.col("timestamp").desc())` —
a fresh traversal of the current table, ordered by timestamp descending. -/
def history (s : LogState) : List CommittedRow :=
  sortByTsDesc s.rows

/-- What the app renders to the operator. -/
inductive Display where
  | metricsView : ℚ → ℚ → Display
  | successView : String → Display
  | errorView : String → String → Display
  deriving DecidableEq, Repr

/-- The message string `str(e)` of each warehouse error. -/
def errText : ErrKind → String
  | .snowparkDivisionByZero => "Division by zero"
  | .snowparkWriteFailed => "Intermediate table write failed"
  | .malformedRecord => "MalformedRecord"
  | .modelUnavailable => "ModelUnavailable"
  | .joinMismatch => "JoinMismatch"
  | .undefinedLift => "UndefinedLift"
  | .commitFailure => "CommitFailure"

/-- The `st.info` text of the catch-all handler (line 231). -/
def snowInfoText : String :=
  "Please check your Snowflake connection and try again."

/-- The outcome of tab2 as the operator sees it: a successful evaluation
renders the two lift metrics (lines 165-177); any exception reaches the
single catch-all handler (lines 229-231), which renders
`st.error(f"An error occurred: {str(e)}")` plus a fixed `st.info` line. -/
def renderEvaluation (res : Except ErrKind LiftMetrics) : Display :=
  match res with
  | .ok m => .metricsView m.demandLiftPct m.profitLiftPct
  | .error e => .errorView ("An error occurred: " ++ errText e) snowInfoText

/-- The Update Prices button flow (lines 207-212): run the append, then
`st.success("Prices updated successfully!")`; an exception raised by the
append skips the success call and reaches the catch-all handler. -/
def renderUpdate (s : LogState) (batch : List PricingRecord) (t : ℕ)
    (storeOk : Bool) : Display :=
  match (commitStep s batch t storeOk).2 with
  | none => .successView "Prices updated successfully!"
  | some e => .errorView ("An error occurred: " ++ errText e) snowInfoText

instance {ε α : Type} [DecidableEq ε] [DecidableEq α] :
    DecidableEq (Except ε α) := fun x y =>
  match x, y with
  | .ok a, .ok b =>
    if h : a = b then isTrue (by rw [h])
    else isFalse (by intro hc; cases hc; exact h rfl)
  | .ok _, .error _ => isFalse (by intro hc; cases hc)
  | .error _, .ok _ => isFalse (by intro hc; cases hc)
  | .error a, .error b =>
    if h : a = b then isTrue (by rw [h])
    else isFalse (by intro hc; cases hc; exact h rfl)

/-! ### Concrete example data -/

/-- A `df_demand` row with the given baseline demand, predicted demand and
baseline profit; the remaining columns are fixed small values. -/
def exDemandRow (cur new prof : ℚ) : DemandRow :=
  { day_of_week := "Mon", current_price_demand := cur, new_price := 0,
    item_cost := 0, average_basket_profit := 0, current_price_profit := prof,
    new_price_demand := new }

/-- A concrete pricing row. -/
def exRecord : PricingRecord :=
  { brand := "b1", item := "i1", day_of_week := "Mon",
    new_price := 5, base_price := 4,
    price_hist_dow := 1, price_year_dow := 2, price_month_dow := 3,
    price_change_hist_dow := 4, price_change_year_dow := 5,
    price_change_month_dow := 6,
    price_hist_roll := 7, price_year_roll := 8, price_month_roll := 9,
    price_change_hist_roll := 10, price_change_year_roll := 11,
    price_change_month_roll := 12,
    comment := "" }

/-- The same pricing row shifted to a day of week that has no detail row
in the example detail table. -/
def exUnmatched : PricingRecord :=
  { exRecord with day_of_week := "Tue" }

/-- The same numeric fields as `exRecord`, under another brand and with a
nonempty comment. -/
def exRecordOtherBrand : PricingRecord :=
  { exRecord with brand := "b2", comment := "note" }

/-- A detail row matching the key of `r`, with the given baseline columns. -/
def detailFor (r : PricingRecord) (cost abp cur prof : ℚ) : DetailRow :=
  { brand := r.brand, item := r.item, day_of_week := r.day_of_week,
    item_cost := cost, average_basket_profit := abp,
    current_price_demand := cur, current_price_profit := prof }

/-- A constant stand-in for the hosted scoring function. -/
def constUdf (q : ℚ) : List ℚ → ℚ := fun _ => q

/-- An operator edit that types a comment into the editable comment cell. -/
def setPromoComment (r : PricingRecord) : PricingRecord :=
  { r with comment := "promo" }

/-! ### Helper lemmas -/

/-- The feature vector written out: the record's fourteen feature-column
values in the order of `feature_cols`. -/
theorem featureVector_eq (r : PricingRecord) :
    featureVector r =
      [ r.new_price, r.base_price,
        r.price_hist_dow, r.price_year_dow, r.price_month_dow,
        r.price_change_hist_dow, r.price_change_year_dow,
        r.price_change_month_dow,
        r.price_hist_roll, r.price_year_roll, r.price_month_roll,
        r.price_change_hist_roll, r.price_change_year_roll,
        r.price_change_month_roll ] := by
  simp [featureVector, feature_cols, colValue]

/-- Every pair produced by the inner join comes from a record and a detail
row whose keys match. -/
theorem mem_joinDetail {records : List PricingRecord} {detail : List DetailRow}
    {p : PricingRecord × DetailRow} (hp : p ∈ joinDetail records detail) :
    p.1 ∈ records ∧ p.2 ∈ detail ∧ keyMatches p.1 p.2 = true := by
  simp only [joinDetail, List.mem_flatMap, List.mem_map] at hp
  obtain ⟨r, hr, d, hd, rfl⟩ := hp
  exact ⟨hr, (List.mem_filter.mp hd).1, (List.mem_filter.mp hd).2⟩

/-- The only error `demand_lift` can raise is the warehouse's
division-by-zero. -/
theorem demand_lift_error {rows : List DemandRow} {e : ErrKind}
    (h : demand_lift rows = .error e) : e = .snowparkDivisionByZero := by
  unfold demand_lift at h
  split at h
  · exact ((Except.error.injEq _ _).mp h).symm
  · exact absurd h (by simp)

/-- The only error `profit_lift` can raise is the warehouse's
division-by-zero. -/
theorem profit_lift_error {rows : List DemandRow} {e : ErrKind}
    (h : profit_lift rows = .error e) : e = .snowparkDivisionByZero := by
  unfold profit_lift at h
  split at h
  · exact ((Except.error.injEq _ _).mp h).symm
  · exact absurd h (by simp)

/-- The only error the whole evaluation can raise is the warehouse's
division-by-zero. -/
theorem evaluate_error {udf : List ℚ → ℚ} {records : List PricingRecord}
    {detail : List DetailRow} {e : ErrKind}
    (h : evaluate udf records detail = .error e) :
    e = .snowparkDivisionByZero := by
  unfold evaluate at h
  cases hd : demand_lift (dfDemand udf records detail) with
  | error e1 =>
    rw [hd] at h
    cases h
    exact demand_lift_error hd
  | ok d =>
    rw [hd] at h
    cases hp : profit_lift (dfDemand udf records detail) with
    | error e2 =>
      rw [hp] at h
      cases h
      exact profit_lift_error hp
    | ok p => rw [hp] at h; cases h

/-- Timestamp-descending comparison on committed rows. -/
def tsDesc (a b : CommittedRow) : Prop :=
  b.timestamp ≤ a.timestamp

theorem mem_insertByTsDesc {a c : CommittedRow} {l : List CommittedRow} :
    a ∈ insertByTsDesc c l ↔ a = c ∨ a ∈ l := by
  induction l with
  | nil => simp [insertByTsDesc]
  | cons x xs ih =>
    unfold insertByTsDesc
    split
    · simp
    · simp only [List.mem_cons, ih]
      tauto

theorem pairwise_insertByTsDesc {c : CommittedRow} {l : List CommittedRow}
    (hl : List.Pairwise tsDesc l) :
    List.Pairwise tsDesc (insertByTsDesc c l) := by
  induction l with
  | nil => simp [insertByTsDesc]
  | cons x xs ih =>
    unfold insertByTsDesc
    rcases hl with - | ⟨hx, hxs⟩
    split
    · refine List.Pairwise.cons ?_ (List.Pairwise.cons hx hxs)
      intro y hy
      rcases List.mem_cons.mp hy with rfl | hy
      · assumption
      · exact le_trans (hx y hy) (by assumption)
    · refine List.Pairwise.cons ?_ (ih hxs)
      intro y hy
      rcases mem_insertByTsDesc.mp hy with rfl | hy
      · exact le_of_not_le (by assumption)
      · exact hx y hy

theorem mem_sortByTsDesc {a : CommittedRow} {l : List CommittedRow} :
    a ∈ sortByTsDesc l ↔ a ∈ l := by
  induction l with
  | nil => simp [sortByTsDesc]
  | cons x xs ih =>
    unfold sortByTsDesc
    rw [mem_insertByTsDesc, ih]
    simp

theorem pairwise_sortByTsDesc (l : List CommittedRow) :
    List.Pairwise tsDesc (sortByTsDesc l) := by
  induction l with
  | nil => simp [sortByTsDesc]
  | cons x xs ih => exact pairwise_insertByTsDesc ih

/-- Membership in the history view is membership in the table. -/
theorem mem_history {c : CommittedRow} {s : LogState} :
    c ∈ history s ↔ c ∈ s.rows :=
  mem_sortByTsDesc

/-- The history view is always pairwise ordered by timestamp descending. -/
theorem pairwise_history (s : LogState) :
    List.Pairwise tsDesc (history s) :=
  pairwise_sortByTsDesc s.rows

/-! ### Claims -/

/-- C1: for every candidate set whose sum of `current_price_demand` is
nonzero, the evaluation pipeline returns a demand lift equal to
`round(100 * (Σ new_price_demand − Σ current_price_demand) / Σ current_price_demand, 1)`,
rounded to one decimal place. -/
theorem c1_demand_lift_formula (rows : List DemandRow)
    (h : sumCol (fun row => row.current_price_demand) rows ≠ 0) :
    demand_lift rows =
      .ok (snowRound1
        (100 * (sumCol (fun row => row.new_price_demand) rows
            - sumCol (fun row => row.current_price_demand) rows)
          / sumCol (fun row => row.current_price_demand) rows)) := by
  rw [demand_lift, if_neg h]
  have hx : ∀ a c : ℚ, (a - c) / c * 100 = 100 * (a - c) / c := by
    intro a c; ring
  rw [hx]

/-- C1 witness: the spec's two-row example, `current_price_demand`
`[100, 50]` and `new_price_demand` `[120, 40]`, has nonzero baseline sum
and yields a demand lift of 6.7. -/
theorem c1_demand_lift_formula_witness :
    sumCol (fun row => row.current_price_demand)
        [exDemandRow 100 120 1, exDemandRow 50 40 1] ≠ 0 ∧
    demand_lift [exDemandRow 100 120 1, exDemandRow 50 40 1]
      = .ok (67 / 10) := by
  have h : sumCol (fun row => row.current_price_demand)
      [exDemandRow 100 120 1, exDemandRow 50 40 1] ≠ 0 := by
    norm_num [sumCol, exDemandRow]
  refine ⟨h, ?_⟩
  rw [c1_demand_lift_formula _ h]
  norm_num [sumCol, exDemandRow, snowRound1, roundHalfAwayFromZero]

/-- C2: every scored row's `new_price_profit` equals
`new_price_demand * (new_price - item_cost + average_basket_profit)`, and
for every candidate set whose sum of `current_price_profit` is nonzero the
pipeline returns a profit lift of
`round(100 * (Σ new_price_profit − Σ current_price_profit) / Σ current_price_profit, 1)`. -/
theorem c2_profit_formula :
    (∀ row : DemandRow,
      new_price_profit row
        = row.new_price_demand
            * (row.new_price - row.item_cost + row.average_basket_profit)) ∧
    ∀ rows : List DemandRow,
      sumCol (fun row => row.current_price_profit) rows ≠ 0 →
      profit_lift rows =
        .ok (snowRound1
          (100 * (sumCol new_price_profit rows
              - sumCol (fun row => row.current_price_profit) rows)
            / sumCol (fun row => row.current_price_profit) rows)) := by
  constructor
  · intro row; rfl
  · intro rows h
    rw [profit_lift, if_neg h]
    have hx : ∀ a c : ℚ, (a - c) / c * 100 = 100 * (a - c) / c := by
      intro a c; ring
    rw [hx]

/-- C2 witness: the spec's example row — `item_cost = 2`,
`average_basket_profit = 1`, `new_price = 5`, `new_price_demand = 30` —
has `new_price_profit = 120`, and with baseline profit 50 the one-row set
yields a profit lift of 140.0. -/
theorem c2_profit_formula_witness :
    new_price_profit
        { day_of_week := "Mon", current_price_demand := 10, new_price := 5,
          item_cost := 2, average_basket_profit := 1,
          current_price_profit := 50, new_price_demand := 30 } = 120 ∧
    sumCol (fun row => row.current_price_profit)
        [{ day_of_week := "Mon", current_price_demand := 10, new_price := 5,
           item_cost := 2, average_basket_profit := 1,
           current_price_profit := 50, new_price_demand := 30 }] ≠ 0 ∧
    profit_lift
        [{ day_of_week := "Mon", current_price_demand := 10, new_price := 5,
           item_cost := 2, average_basket_profit := 1,
           current_price_profit := 50, new_price_demand := 30 }]
      = .ok 140 := by
  have h : sumCol (fun row => row.current_price_profit)
      [{ day_of_week := "Mon", current_price_demand := 10, new_price := 5,
         item_cost := 2, average_basket_profit := 1,
         current_price_profit := 50, new_price_demand := 30 }] ≠ 0 := by
    norm_num [sumCol]
  refine ⟨?_, h, ?_⟩
  · rw [c2_profit_formula.1]
    norm_num
  · rw [c2_profit_formula.2 _ h]
    norm_num [sumCol, new_price_profit, snowRound1, roundHalfAwayFromZero]

/-- C3 counterexample: on a candidate set whose `current_price_demand`
sums to 0, the lift query fails with the warehouse's division-by-zero
error — not with a distinct `UndefinedLift` condition, which the program
never raises. -/
theorem c3_counterexample :
    demand_lift [exDemandRow 0 10 1] = .error .snowparkDivisionByZero ∧
    demand_lift [exDemandRow 0 10 1] ≠ .error .undefinedLift := by
  have h : demand_lift [exDemandRow 0 10 1]
      = .error .snowparkDivisionByZero := by
    rw [demand_lift, if_pos (by norm_num [sumCol, exDemandRow])]
  refine ⟨h, ?_⟩
  rw [h]
  intro hc
  cases hc

/-- C3 amended: for every candidate set in which the sum of
`current_price_demand` (or of `current_price_profit`) is zero, evaluation
fails with the warehouse's division-by-zero error, surfaced through the
app's generic exception handler rather than as a distinct `UndefinedLift`
condition; it never returns a numeric lift (so never Infinity or NaN). -/
theorem c3_zero_baseline_amended (rows : List DemandRow) :
    (sumCol (fun row => row.current_price_demand) rows = 0 →
      demand_lift rows = .error .snowparkDivisionByZero ∧
      ∀ q : ℚ, demand_lift rows ≠ .ok q) ∧
    (sumCol (fun row => row.current_price_profit) rows = 0 →
      profit_lift rows = .error .snowparkDivisionByZero ∧
      ∀ q : ℚ, profit_lift rows ≠ .ok q) := by
  constructor
  · intro h
    have hd : demand_lift rows = .error .snowparkDivisionByZero := by
      rw [demand_lift, if_pos h]
    refine ⟨hd, ?_⟩
    intro q hq
    rw [hd] at hq
    cases hq
  · intro h
    have hp : profit_lift rows = .error .snowparkDivisionByZero := by
      rw [profit_lift, if_pos h]
    refine ⟨hp, ?_⟩
    intro q hq
    rw [hp] at hq
    cases hq

/-- C3 amended witness: a one-row set with both baselines zero fails both
lift queries with the division-by-zero error. -/
theorem c3_zero_baseline_amended_witness :
    sumCol (fun row => row.current_price_demand) [exDemandRow 0 10 0] = 0 ∧
    demand_lift [exDemandRow 0 10 0] = .error .snowparkDivisionByZero ∧
    sumCol (fun row => row.current_price_profit) [exDemandRow 0 10 0] = 0 ∧
    profit_lift [exDemandRow 0 10 0] = .error .snowparkDivisionByZero := by
  have h1 : sumCol (fun row => row.current_price_demand)
      [exDemandRow 0 10 0] = 0 := by norm_num [sumCol, exDemandRow]
  have h2 : sumCol (fun row => row.current_price_profit)
      [exDemandRow 0 10 0] = 0 := by norm_num [sumCol, exDemandRow]
  exact ⟨h1, ((c3_zero_baseline_amended _).1 h1).1,
         h2, ((c3_zero_baseline_amended _).2 h2).1⟩

/-- C4 counterexample: the argument sequence passed to the scoring
function has exactly 14 entries, not the 16 the claim states — the source's
`feature_cols` holds `new_price`, `base_price` and twelve (not fourteen)
historical feature columns. -/
theorem c4_counterexample :
    (featureVector exRecord).length = 14 ∧
    (featureVector exRecord).length ≠ 16 ∧
    feature_cols.length ≠ 16 := by
  refine ⟨?_, ?_, ?_⟩
  · rw [featureVector_eq]; rfl
  · rw [featureVector_eq]; simp
  · simp [feature_cols]

/-- C4 amended: for every record the argument sequence passed to the
scoring function consists of exactly 14 positional numeric values in a
fixed order — `new_price` first, `base_price` second, then the 12
historical feature columns in the fixed `feature_cols` order — identical
on every call. -/
theorem c4_feature_vector_amended (r : PricingRecord) :
    featureVector r =
      [ r.new_price, r.base_price,
        r.price_hist_dow, r.price_year_dow, r.price_month_dow,
        r.price_change_hist_dow, r.price_change_year_dow,
        r.price_change_month_dow,
        r.price_hist_roll, r.price_year_roll, r.price_month_roll,
        r.price_change_hist_roll, r.price_change_year_roll,
        r.price_change_month_roll ] ∧
    (featureVector r).length = 14 ∧
    feature_cols.length = 14 := by
  refine ⟨featureVector_eq r, ?_, ?_⟩
  · rw [featureVector_eq]; rfl
  · rfl

/-- C5 counterexample: a two-row candidate set in which `exUnmatched` has
no detail row for its (brand, item, day_of_week) key evaluates
successfully — no `JoinMismatch` error, no abort — because the inner join
silently drops the unmatched row; only one joined row remains. -/
theorem c5_counterexample :
    evaluate (constUdf 120) [exUnmatched, exRecord]
        [detailFor exRecord 2 1 100 50]
      = .ok { demandLiftPct := 20, profitLiftPct := 860 } ∧
    (joinDetail [exUnmatched, exRecord] [detailFor exRecord 2 1 100 50]).length
      = 1 := by
  have hj : joinDetail [exUnmatched, exRecord] [detailFor exRecord 2 1 100 50]
      = [(exRecord, detailFor exRecord 2 1 100 50)] := by
    simp [joinDetail, keyMatches, exUnmatched, exRecord, detailFor]
  have hrows : dfDemand (constUdf 120) [exUnmatched, exRecord]
      [detailFor exRecord 2 1 100 50]
      = [{ day_of_week := "Mon", current_price_demand := 100, new_price := 5,
           item_cost := 2, average_basket_profit := 1,
           current_price_profit := 50, new_price_demand := 120 }] := by
    rw [dfDemand, hj]
    simp [exRecord, detailFor, constUdf]
  constructor
  · rw [evaluate, hrows]
    norm_num [demand_lift, profit_lift, sumCol, new_price_profit,
      snowRound1, roundHalfAwayFromZero]
  · rw [hj]
    rfl

/-- C5 amended: a record with no matching historical-detail row is
silently dropped by the inner join — it contributes no joined row, its
baseline fields are never defaulted to zero (it simply never appears), and
evaluation proceeds over the matched rows without ever raising a
`JoinMismatch` error. -/
theorem c5_join_drops_unmatched_amended (records : List PricingRecord)
    (detail : List DetailRow) (r : PricingRecord) (hr : r ∈ records)
    (hnone : ∀ d ∈ detail, keyMatches r d = false) :
    (∀ p ∈ joinDetail records detail, p.1 ≠ r) ∧
    ∀ udf : List ℚ → ℚ,
      evaluate udf records detail ≠ .error .joinMismatch := by
  constructor
  · intro p hp hpr
    obtain ⟨-, hd, hk⟩ := mem_joinDetail hp
    rw [hpr, hnone p.2 hd] at hk
    cases hk
  · intro udf hcontra
    have he := evaluate_error hcontra
    cases he

/-- C5 amended witness: in the concrete two-row set, `exUnmatched` is in
the candidate set, matches no detail row, and indeed appears in no joined
pair. -/
theorem c5_join_drops_unmatched_amended_witness :
    exUnmatched ∈ [exUnmatched, exRecord] ∧
    (∀ d ∈ [detailFor exRecord 2 1 100 50],
      keyMatches exUnmatched d = false) ∧
    (∀ p ∈ joinDetail [exUnmatched, exRecord] [detailFor exRecord 2 1 100 50],
      p.1 ≠ exUnmatched) := by
  have hr : exUnmatched ∈ [exUnmatched, exRecord] := by simp
  have hnone : ∀ d ∈ [detailFor exRecord 2 1 100 50],
      keyMatches exUnmatched d = false := by
    intro d hd
    rw [List.mem_singleton] at hd
    subst hd
    simp [keyMatches, exUnmatched, exRecord, detailFor]
  exact ⟨hr, hnone,
    (c5_join_drops_unmatched_amended _ _ _ hr hnone).1⟩

/-- C6: the commit of lines 207-212 is a single whole-batch append
statement, so it is atomic: when the store accepts it, the table gains
exactly the stamped batch and every one of the N transactions is visible
in `history()`; when the store rejects it, the table is unchanged and zero
rows of the batch are visible in `history()`. -/
theorem c6_commit_atomic (s : LogState) (batch : List PricingRecord)
    (t : ℕ) (storeOk : Bool) (hfresh : ∀ c ∈ s.rows, c.timestamp ≠ t) :
    ((commitStep s batch t storeOk).2 = none →
      (commitStep s batch t storeOk).1.rows = s.rows ++ stampBatch batch t ∧
      ∀ r ∈ batch,
        ({ row := r, timestamp := t } : CommittedRow)
          ∈ history (commitStep s batch t storeOk).1) ∧
    ((commitStep s batch t storeOk).2 ≠ none →
      (commitStep s batch t storeOk).1 = s ∧
      ∀ r ∈ batch,
        ({ row := r, timestamp := t } : CommittedRow)
          ∉ history (commitStep s batch t storeOk).1) := by
  cases storeOk with
  | true =>
    constructor
    · intro _
      refine ⟨rfl, ?_⟩
      intro r hr
      rw [mem_history]
      simp only [commitStep, if_pos]
      rw [List.mem_append]
      right
      rw [stampBatch, List.mem_map]
      exact ⟨r, hr, rfl⟩
    · intro h2
      exact absurd rfl h2
  | false =>
    constructor
    · intro h
      simp [commitStep] at h
    · intro _
      refine ⟨rfl, ?_⟩
      intro r hr hmem
      rw [mem_history] at hmem
      exact hfresh _ hmem rfl

/-- C6 witness: on an empty log, a rejected one-row commit leaves the log
unchanged and the row invisible in history; an accepted one leaves it
visible. -/
theorem c6_commit_atomic_witness :
    (commitStep { rows := [] } [exRecord] 5 false).1 = { rows := [] } ∧
    ({ row := exRecord, timestamp := 5 } : CommittedRow)
      ∉ history (commitStep { rows := [] } [exRecord] 5 false).1 ∧
    ({ row := exRecord, timestamp := 5 } : CommittedRow)
      ∈ history (commitStep { rows := [] } [exRecord] 5 true).1 := by
  have hfresh : ∀ c ∈ ({ rows := [] } : LogState).rows, c.timestamp ≠ 5 := by
    intro c hc
    cases hc
  have hfail :=
    (c6_commit_atomic { rows := [] } [exRecord] 5 false hfresh).2
      (by simp [commitStep])
  have hok :=
    (c6_commit_atomic { rows := [] } [exRecord] 5 true hfresh).1
      (by simp [commitStep])
  exact ⟨hfail.1, hfail.2 exRecord (by simp), hok.2 exRecord (by simp)⟩

/-- C7: every record of a successfully committed batch is retrievable via
`history()` as a transaction that reproduces the record's fields exactly
and carries a timestamp at least the batch's commit start time, and
`history()` always yields transactions pairwise ordered by timestamp
descending. -/
theorem c7_roundtrip (s : LogState) (batch : List PricingRecord)
    (startT t : ℕ) (hstart : startT ≤ t) :
    (∀ r ∈ batch, ∃ c ∈ history (commitStep s batch t true).1,
      c.row = r ∧ startT ≤ c.timestamp) ∧
    ∀ s0 : LogState, List.Pairwise tsDesc (history s0) := by
  constructor
  · intro r hr
    refine ⟨{ row := r, timestamp := t }, ?_, rfl, hstart⟩
    rw [mem_history]
    simp only [commitStep, if_pos]
    rw [List.mem_append]
    right
    rw [stampBatch, List.mem_map]
    exact ⟨r, hr, rfl⟩
  · exact pairwise_history

/-- C7 witness: a batch committed at write time 5, with commit start
time 3, is found in history with all fields intact and timestamp ≥ 3. -/
theorem c7_roundtrip_witness :
    (3 : ℕ) ≤ 5 ∧
    (∃ c ∈ history (commitStep { rows := [] } [exRecord] 5 true).1,
      c.row = exRecord ∧ 3 ≤ c.timestamp) ∧
    List.Pairwise tsDesc
      (history (commitStep { rows := [] } [exRecord] 5 true).1) := by
  have h := c7_roundtrip { rows := [] } [exRecord] 3 5 (by norm_num)
  exact ⟨by norm_num, h.1 exRecord (by simp), h.2 _⟩

/-- A concrete failing evaluation: the single candidate row joins a detail
row whose baseline demand is 0, so the demand-lift query raises the
warehouse's division-by-zero error. -/
theorem evaluate_zero_baseline_input :
    evaluate (constUdf 120) [exRecord] [detailFor exRecord 2 1 0 50]
      = .error .snowparkDivisionByZero := by
  have hrows : dfDemand (constUdf 120) [exRecord] [detailFor exRecord 2 1 0 50]
      = [{ day_of_week := "Mon", current_price_demand := 0, new_price := 5,
           item_cost := 2, average_basket_profit := 1,
           current_price_profit := 50, new_price_demand := 120 }] := by
    rw [dfDemand]
    have hj : joinDetail [exRecord] [detailFor exRecord 2 1 0 50]
        = [(exRecord, detailFor exRecord 2 1 0 50)] := by
      simp [joinDetail, keyMatches, exRecord, detailFor]
    rw [hj]
    simp [exRecord, detailFor, constUdf]
  rw [evaluate, hrows]
  norm_num [demand_lift, sumCol]

/-- C8 counterexample: on the concrete failing evaluation, the condition
that reaches the caller is the warehouse's generic division-by-zero error
rendered by the blanket `except` handler — not the distinct
`UndefinedLift` kind the claim requires, which the program never raises. -/
theorem c8_counterexample :
    evaluate (constUdf 120) [exRecord] [detailFor exRecord 2 1 0 50]
      = .error .snowparkDivisionByZero ∧
    ErrKind.snowparkDivisionByZero ≠ ErrKind.undefinedLift ∧
    renderEvaluation
        (evaluate (constUdf 120) [exRecord] [detailFor exRecord 2 1 0 50])
      = .errorView "An error occurred: Division by zero" snowInfoText := by
  refine ⟨evaluate_zero_baseline_input, by decide, ?_⟩
  rw [evaluate_zero_baseline_input]
  rfl

/-- C8 amended: every failing evaluation reaches the caller only as the
generic error view of the catch-all handler, carrying the exception's
message string — never as a metrics view, so no error is converted into a
zero or default metric; and a failing commit never renders the success
message and leaves the log unchanged, so no partial success is reported as
success. The five named kinds of the design taxonomy are not distinct
conditions in the program. -/
theorem c8_generic_error_amended :
    (∀ (udf : List ℚ → ℚ) (records : List PricingRecord)
        (detail : List DetailRow) (e : ErrKind),
      evaluate udf records detail = .error e →
        renderEvaluation (evaluate udf records detail)
            = .errorView ("An error occurred: " ++ errText e) snowInfoText ∧
        ∀ d p : ℚ,
          renderEvaluation (evaluate udf records detail)
            ≠ .metricsView d p) ∧
    ∀ (s : LogState) (batch : List PricingRecord) (t : ℕ) (storeOk : Bool),
      (commitStep s batch t storeOk).2 ≠ none →
        renderUpdate s batch t storeOk
            ≠ .successView "Prices updated successfully!" ∧
        (commitStep s batch t storeOk).1 = s := by
  constructor
  · intro udf records detail e h
    rw [h]
    refine ⟨rfl, ?_⟩
    intro d p hc
    cases hc
  · intro s batch t storeOk h
    cases storeOk with
    | true => exact absurd rfl h
    | false =>
      constructor
      · rw [renderUpdate]
        intro hc
        cases hc
      · rfl

/-- C8 amended witness: on the concrete failing evaluation, the rendered
output is the generic error view with the division-by-zero message. -/
theorem c8_generic_error_amended_witness :
    evaluate (constUdf 120) [exRecord] [detailFor exRecord 2 1 0 50]
      = .error .snowparkDivisionByZero ∧
    renderEvaluation
        (evaluate (constUdf 120) [exRecord] [detailFor exRecord 2 1 0 50])
      = .errorView ("An error occurred: "
          ++ errText .snowparkDivisionByZero) snowInfoText := by
  refine ⟨evaluate_zero_baseline_input, ?_⟩
  exact (c8_generic_error_amended.1 (constUdf 120) [exRecord]
    [detailFor exRecord 2 1 0 50] .snowparkDivisionByZero
    evaluate_zero_baseline_input).1

/-- C9: feature vector assembly is deterministic — two pricing records
that agree on all fourteen feature columns are passed identical argument
sequences, whatever their other fields. -/
theorem c9_feature_vector_deterministic (r1 r2 : PricingRecord)
    (h1 : r1.new_price = r2.new_price)
    (h2 : r1.base_price = r2.base_price)
    (h3 : r1.price_hist_dow = r2.price_hist_dow)
    (h4 : r1.price_year_dow = r2.price_year_dow)
    (h5 : r1.price_month_dow = r2.price_month_dow)
    (h6 : r1.price_change_hist_dow = r2.price_change_hist_dow)
    (h7 : r1.price_change_year_dow = r2.price_change_year_dow)
    (h8 : r1.price_change_month_dow = r2.price_change_month_dow)
    (h9 : r1.price_hist_roll = r2.price_hist_roll)
    (h10 : r1.price_year_roll = r2.price_year_roll)
    (h11 : r1.price_month_roll = r2.price_month_roll)
    (h12 : r1.price_change_hist_roll = r2.price_change_hist_roll)
    (h13 : r1.price_change_year_roll = r2.price_change_year_roll)
    (h14 : r1.price_change_month_roll = r2.price_change_month_roll) :
    featureVector r1 = featureVector r2 := by
  rw [featureVector_eq, featureVector_eq,
    h1, h2, h3, h4, h5, h6, h7, h8, h9, h10, h11, h12, h13, h14]

/-- C9 witness: two records with the same numeric fields but different
brand and comment get the same argument sequence. -/
theorem c9_feature_vector_deterministic_witness :
    featureVector exRecord = featureVector exRecordOtherBrand :=
  c9_feature_vector_deterministic exRecord exRecordOtherBrand
    rfl rfl rfl rfl rfl rfl rfl rfl rfl rfl rfl rfl rfl rfl

/-- C10 counterexample: the operator can type into the comment cell of the
data editor (the editor disables no column), and the commit persists the
edited frame verbatim — so a committed row can carry the operator's
comment "promo", not the empty string the claim requires on every row. -/
theorem c10_counterexample :
    ((commitStep { rows := [] }
        (dataEditor setPromoComment (loadPricing [exRecord])) 5 true).1.rows.map
      fun c => c.row.comment) = ["promo"] ∧
    ("promo" : String) ≠ "" := by
  constructor
  · simp [commitStep, stampBatch, dataEditor, loadPricing, setPromoComment]
  · decide

/-- C10 amended: the program sets `comment` to the empty string on every
record at load time and never itself changes it, so whenever the
operator's edits leave the comment cells unchanged, every row appended by
commit carries the empty comment; but because the commit writes the
operator-edited frame and the data editor leaves the comment column
editable, an operator-supplied comment can be persisted. -/
theorem c10_comment_amended (tbl : List PricingRecord)
    (edit : PricingRecord → PricingRecord) (t : ℕ)
    (hpreserve : ∀ r : PricingRecord, (edit r).comment = r.comment) :
    (∀ r ∈ loadPricing tbl, r.comment = "") ∧
    ∀ c ∈ stampBatch (dataEditor edit (loadPricing tbl)) t,
      c.row.comment = "" := by
  constructor
  · intro r hr
    obtain ⟨r0, -, rfl⟩ := List.mem_map.mp hr
    rfl
  · intro c hc
    obtain ⟨r1, hr1, rfl⟩ := List.mem_map.mp hc
    obtain ⟨r2, hr2, rfl⟩ := List.mem_map.mp hr1
    obtain ⟨r0, -, rfl⟩ := List.mem_map.mp hr2
    rw [hpreserve]

/-- C10 amended witness: with an edit that does not touch the comment
cells (the identity edit), every stamped row of the committed batch
carries the empty comment. -/
theorem c10_comment_amended_witness :
    (∀ r : PricingRecord, (id r : PricingRecord).comment = r.comment) ∧
    ∀ c ∈ stampBatch (dataEditor id (loadPricing [exRecord])) 5,
      c.row.comment = "" := by
  have hp : ∀ r : PricingRecord, (id r : PricingRecord).comment = r.comment :=
    fun r => rfl
  exact ⟨hp, (c10_comment_amended [exRecord] id 5 hp).2⟩

end DynamicPricing
